import Mathlib

/-!
A shallow embedding of the `baihuay-scrapping` news scraper
(`src/scrapers/base_scraper.py` and `src/scrapers/thairath_news_scrapper.py`),
with theorems settling the specification's claims about it.

Modelling conventions:
* Parsed HTML is a tree of `Node`s; a parsed document (a BeautifulSoup object)
  is the list of top-level nodes, `Doc`.
* A bs4 `Tag` is always truthy (bs4 defines its boolean conversion to return
  `True` even for an empty tag), so the Python guard `if not soup` fires
  exactly when `soup` is `None`; the embedded `make_request` result is
  therefore `Option Doc`, and the guard is a match on `none`.
* Python exceptions are `Except String`; a function that can raise returns
  `Except String α`.
* The network and the random number generator are oracles passed as
  parameters: `net k` is the outcome of the HTTP GET of attempt `k`
  (transport error or parsed document), `rand k` the value drawn by
  `random.uniform` before attempt `k`.
* Side effects (sleeps, requests, lookups) are recorded in explicit traces.
-/

/-- An HTML node: either a text node or an element with a tag name,
attributes, and children. -/
inductive Node where
  | text (s : String)
  | elem (tag : String) (attrs : List (String × String)) (children : List Node)

/-- A parsed document: the top-level nodes of the tree (the children of the
BeautifulSoup root object). -/
abbrev Doc := List Node

/-- Attribute lookup on a node, as bs4 `Tag.get`: `none` on a text node or a
missing attribute. -/
def Node.get (n : Node) (key : String) : Option String :=
  match n with
  | .text _ => none
  | .elem _ attrs _ => (attrs.find? (fun p => p.1 == key)).map (fun p => p.2)

/-- Splitting of a character list at spaces, accumulating the current token
in reverse; the segment between two consecutive spaces may be empty, as in
Python's `str.split(" ")`. -/
def splitSpacesAux : List Char → List Char → List String
  | [], cur => [String.mk cur.reverse]
  | c :: cs, cur =>
    if c == ' ' then String.mk cur.reverse :: splitSpacesAux cs []
    else splitSpacesAux cs (c :: cur)

/-- The CSS class tokens of a `class` attribute value: its space-separated
segments (bs4 stores the multi-valued `class` attribute as this list). -/
def classTokens (v : String) : List String :=
  splitSpacesAux v.data []

/-- Removal of leading whitespace characters from a character list. -/
def dropLeadingWs : List Char → List Char
  | [] => []
  | c :: cs => if c.isWhitespace then dropLeadingWs cs else c :: cs

/-- Python `str.strip()` with no arguments: the string with leading and
trailing whitespace removed. -/
def pyStrip (s : String) : String :=
  String.mk (List.reverse (dropLeadingWs (List.reverse (dropLeadingWs s.data))))

mutual

/-- All nodes of a subtree in document order (preorder), the root included:
the order in which bs4 enumerates matches. -/
def Node.preorder : Node → List Node
  | .text s => [Node.text s]
  | .elem t a cs => Node.elem t a cs :: preorderForest cs

/-- Preorder traversal of a list of sibling subtrees. -/
def preorderForest : List Node → List Node
  | [] => []
  | n :: ns => n.preorder ++ preorderForest ns

end

mutual

/-- The text-node strings of a subtree in document order; bs4 `get_text`
variants are joins over this list. -/
def Node.strings : Node → List String
  | .text s => [s]
  | .elem _ _ cs => stringsForest cs

/-- Text-node strings of a list of sibling subtrees, in document order. -/
def stringsForest : List Node → List String
  | [] => []
  | n :: ns => n.strings ++ stringsForest ns

end

/-- bs4 `Tag.getText()` with no arguments: the concatenation of every
contained string, in document order, with no separator and no stripping. -/
def Node.getText (n : Node) : String :=
  String.join n.strings

/-- bs4 `Tag.get_text(strip=True)`: each contained string is stripped of
surrounding whitespace and the results are joined with no separator. -/
def Node.getTextStrip (n : Node) : String :=
  String.join (n.strings.map pyStrip)

/-- Whether `n` is a `div` element one of whose CSS classes (the
whitespace-separated tokens of its `class` attribute) is `cls`; this is how
bs4 matches `find("div", {"class": cls})`, the `class` attribute being
multi-valued. -/
def isDivWithClass (cls : String) (n : Node) : Bool :=
  match n with
  | .text _ => false
  | .elem t _ _ =>
    t == "div" &&
      match n.get "class" with
      | some v => (classTokens v).contains cls
      | none => false

/-- bs4 `soup.find("div", {"class": cls})` on a parsed document: the first
matching element in document order, or `none`. -/
def findDivClass (doc : Doc) (cls : String) : Option Node :=
  (preorderForest doc).find? (isDivWithClass cls)

/-- Whether `n` is an element with tag name `name`. -/
def isNamed (name : String) (n : Node) : Bool :=
  match n with
  | .text _ => false
  | .elem t _ _ => t == name

/-- bs4 `container.find_all(name)`: every descendant element of `container`
with the given tag name, in document order (the container itself excluded). -/
def findAllNamed (container : Node) (name : String) : List Node :=
  match container with
  | .text _ => []
  | .elem _ _ cs => (preorderForest cs).filter (isNamed name)

/-- A side effect of `make_request`, in the order performed: the
`time.sleep(random.uniform(*self.delay_range))` before an attempt, the
`requests.get` of an attempt, or the `time.sleep(2 ** attempt)` backoff
after a failed attempt that is not the last. -/
inductive FetchEv where
  | sleepDelay (d : ℚ)
  | httpGet (url : String)
  | sleepBackoff (t : ℕ)
deriving DecidableEq

/-- The `for attempt in range(self.max_retries)` loop of
`BaseScraper.make_request`, on the list of remaining attempt indices.
Each iteration sleeps the `random.uniform` draw `rand attempt`, performs the
GET (`net attempt` is its outcome); on success the parsed document is
returned at once; on a transport error
(`requests.exceptions.RequestException`), the last attempt
(`attempt == self.max_retries - 1`, integer arithmetic) returns `None`, and
any other failed attempt sleeps `2 ** attempt` and goes on to the next
iteration. An exhausted loop falls through to the final `return None`. -/
def makeRequestLoop (net : ℕ → Except Unit Doc) (rand : ℕ → ℚ)
    (maxRetries : ℤ) (url : String) : List ℕ → Option Doc × List FetchEv
  | [] => (none, [])
  | attempt :: rest =>
    match net attempt with
    | .ok doc => (some doc, [FetchEv.sleepDelay (rand attempt), FetchEv.httpGet url])
    | .error _ =>
      if (attempt : ℤ) = maxRetries - 1 then
        (none, [FetchEv.sleepDelay (rand attempt), FetchEv.httpGet url])
      else
        let r := makeRequestLoop net rand maxRetries url rest
        (r.1, FetchEv.sleepDelay (rand attempt) :: FetchEv.httpGet url ::
          FetchEv.sleepBackoff (2 ^ attempt) :: r.2)

/-- `BaseScraper.make_request(url)`: the retry loop over
`range(self.max_retries)` (empty when `max_retries ≤ 0`, as in Python),
returning the parsed document or `None`, paired with the trace of sleeps and
requests performed. `net` and `rand` are the network and `random.uniform`
oracles. -/
def make_request (net : ℕ → Except Unit Doc) (rand : ℕ → ℚ)
    (maxRetries : ℤ) (url : String) : Option Doc × List FetchEv :=
  makeRequestLoop net rand maxRetries url (List.range maxRetries.toNat)

/-- The trace segment of a failed attempt `j` that is followed by another
attempt: base delay, GET, and the `2 ** j` backoff sleep. -/
def failSeg (rand : ℕ → ℚ) (url : String) (j : ℕ) : List FetchEv :=
  [FetchEv.sleepDelay (rand j), FetchEv.httpGet url, FetchEv.sleepBackoff (2 ^ j)]

/-- The trace segment of the last attempt performed (successful, or failed
with no retry remaining): base delay and GET only, no backoff. -/
def lastSeg (rand : ℕ → ℚ) (url : String) (j : ℕ) : List FetchEv :=
  [FetchEv.sleepDelay (rand j), FetchEv.httpGet url]

/-- The number of HTTP GET requests in a `make_request` trace. -/
def countGets (tr : List FetchEv) : ℕ :=
  tr.countP (fun e => match e with | FetchEv.httpGet _ => true | _ => false)

/-- The argument of `extract_text`: Python `None`, a bs4 element, or an
object whose text extraction raises (the `except` branch's case). A bs4
element is always truthy, `None` is falsy. -/
inductive BsElement where
  | null
  | tag (n : Node)
  | broken (msg : String)

/-- `BaseScraper.extract_text(element, default)`:
`element.get_text(strip=True) if element else default` guarded by
`try/except` returning `default` on any exception. Total: it never raises. -/
def extract_text (element : BsElement) (default : String) : String :=
  match element with
  | .null => default
  | .tag n => n.getTextStrip
  | .broken _ => default

/-- An article record as built by `scrape_highlight_news`: the Python dict
with keys `title`, `link`, `news_type`, `content`. -/
structure Article where
  title : Option String
  link : String
  news_type : String
  content : Option String
deriving DecidableEq

/-- Python f-string interpolation of an optional attribute value, as in
`f"{url}{news.get("href")}"`: `None` formats as the string `"None"`. -/
def pyFormatOpt : Option String → String
  | some s => s
  | none => "None"

/-- A side effect of the extractors: a `self.make_request(u)` call, or a
`soup.find("div", {"class": cls})` container lookup. -/
inductive ScrapeEv where
  | fetched (u : String)
  | lookedUpDiv (cls : String)
deriving DecidableEq

/-- `ThaiRathNewsScraper.scrape_news_content(url)`; `fetch` abstracts
`self.make_request`. Fetches `url`; a `None` result returns `None` (a parsed
document is truthy even when empty, so the guard tests only `None`-ness);
then `soup.find("div", {"class": "article-body"})` — a missing container
makes the chained `.find_all("p")` raise `AttributeError` — and the loop
`new_content += line.getText()` over the paragraphs. The result is paired
with the trace of fetches and lookups performed. -/
def scrape_news_content (fetch : String → Option Doc) (url : String) :
    Except String (Option String) × List ScrapeEv :=
  match fetch url with
  | none => (Except.ok none, [ScrapeEv.fetched url])
  | some soup =>
    match findDivClass soup "article-body" with
    | none =>
      (Except.error "AttributeError: NoneType object has no attribute find_all",
       [ScrapeEv.fetched url, ScrapeEv.lookedUpDiv "article-body"])
    | some container =>
      (Except.ok (some ((findAllNamed container "p").foldl
          (fun acc line => acc ++ line.getText) "")),
       [ScrapeEv.fetched url, ScrapeEv.lookedUpDiv "article-body"])

/-- The `for news in highlight_news` loop of `scrape_highlight_news`: one
record appended per link, with `news_content_link = f"{url}{news.get("href")}"`
and `content` obtained by the nested `self.scrape_news_content` call, whose
exception (if any) propagates and discards the records built so far. -/
def buildHighlight (fetch : String → Option Doc) (url category : String) :
    List Node → Except String (List Article) × List ScrapeEv
  | [] => (Except.ok [], [])
  | news :: rest =>
    let link := url ++ pyFormatOpt (news.get "href")
    let c := scrape_news_content fetch link
    match c.1 with
    | Except.error e => (Except.error e, c.2)
    | Except.ok content =>
      let r := buildHighlight fetch url category rest
      match r.1 with
      | Except.error e => (Except.error e, c.2 ++ r.2)
      | Except.ok arts =>
        (Except.ok ({ title := news.get "title", link := link,
                      news_type := category, content := content } :: arts),
         c.2 ++ r.2)

/-- `ThaiRathNewsScraper.scrape_highlight_news(url, category)`; `fetch`
abstracts `self.make_request`. Fetches `url`; `None` returns `None`; then
`soup.find("div", {"class": "slick-track"})` — a missing container makes the
chained `.find_all("a")` raise `AttributeError` — and the record-building
loop over the links found. -/
def scrape_highlight_news (fetch : String → Option Doc) (url category : String) :
    Except String (Option (List Article)) × List ScrapeEv :=
  match fetch url with
  | none => (Except.ok none, [ScrapeEv.fetched url])
  | some soup =>
    match findDivClass soup "slick-track" with
    | none =>
      (Except.error "AttributeError: NoneType object has no attribute find_all",
       [ScrapeEv.fetched url, ScrapeEv.lookedUpDiv "slick-track"])
    | some container =>
      let r := buildHighlight fetch url category (findAllNamed container "a")
      (r.1.map some, ScrapeEv.fetched url :: ScrapeEv.lookedUpDiv "slick-track" :: r.2)

/-- The category list set in `ThaiRathNewsScraper.__init__`. -/
def news_category : List String :=
  ["royal", "society", "politic", "money", "foreign", "crime"]

/-- The base URL passed to `BaseScraper.__init__` by `ThaiRathNewsScraper`. -/
def thairath_base_url : String :=
  "https://www.thairath.co.th/news/"

/-- The call `self.scrape_highlight_news(f"{self.base_url}{category}")` at
thairath_news_scrapper.py line 22: it passes one positional argument to a
method whose signature `scrape_highlight_news(self, url, category)` requires
two, so CPython raises `TypeError` at the call site, before the method body
runs. -/
def scrape_highlight_news_missing_category (_url : String) :
    Except String (Option (List Article)) :=
  Except.error
    "TypeError: scrape_highlight_news() missing 1 required positional argument: category"

/-- `ThaiRathNewsScraper.scrape(url)`: `for category in self.news_category`,
call `self.scrape_highlight_news(f"{self.base_url}{category}")` (the call
that omits the required `category` argument) and then sleep
`random.uniform(*self.delay_range)`; an exception raised by the call
propagates out of the loop, so the sleep after it is never reached. -/
def scrape (base_url : String) : List String → Except String Unit
  | [] => Except.ok ()
  | category :: rest =>
    match scrape_highlight_news_missing_category (base_url ++ category) with
    | Except.error e => Except.error e
    | Except.ok _ => scrape base_url rest

/-- The value returned by a `scrape_news_content` call that did not raise
(`none` only when its fetch failed). -/
def okValue (e : Except String (Option String)) : Option String :=
  match e with
  | Except.ok c => c
  | Except.error _ => none

example :
    findDivClass
      [Node.elem "body" [] [Node.elem "div" [("class", "a slick-track")] [Node.text "x"]]]
      "slick-track" =
    some (Node.elem "div" [("class", "a slick-track")] [Node.text "x"]) := by
  rfl

example :
    (Node.elem "div" [] [Node.elem "p" [] [Node.text "A"], Node.text "q",
      Node.elem "p" [] [Node.text "B"]]).getText = "AqB" := by
  rfl

example :
    findAllNamed (Node.elem "div" [] [Node.elem "p" [] [Node.text "A"],
      Node.elem "span" [] [Node.elem "p" [] [Node.text "B"]]]) "p" =
    [Node.elem "p" [] [Node.text "A"], Node.elem "p" [] [Node.text "B"]] := by
  rfl

/-- Appending the empty string on the right is the identity. -/
theorem string_append_empty (s : String) : s ++ "" = s := by
  apply String.ext
  simp [String.data_append]

/-- `String.join` of a cons: head appended to the join of the tail. -/
theorem string_join_cons (x : String) (l : List String) :
    String.join (x :: l) = x ++ String.join l := by
  apply String.ext
  simp [String.data_append]

/-- String append is associative. -/
theorem string_append_assoc (a b c : String) : (a ++ b) ++ c = a ++ (b ++ c) := by
  apply String.ext
  simp [String.data_append]

/-- The paragraph-accumulation loop of `scrape_news_content`
(`new_content += line.getText()`) computes the separator-free join of the
paragraphs' texts, in order. -/
theorem foldl_concat_getText (ps : List Node) (acc : String) :
    ps.foldl (fun acc line => acc ++ line.getText) acc
      = acc ++ String.join (ps.map Node.getText) := by
  induction ps generalizing acc with
  | nil => simp [show String.join ([] : List String) = "" from rfl, string_append_empty]
  | cons p ps ih => simp [ih, string_join_cons, string_append_assoc]

/-- C10. If the scraper is constructed with `max_retries` zero or negative,
`range(self.max_retries)` is empty, so `make_request` performs no attempt —
no HTTP GET and no sleep (empty trace) — and returns `None` for every URL. -/
theorem make_request_nonpositive_retries (net : ℕ → Except Unit Doc)
    (rand : ℕ → ℚ) (url : String) (m : ℤ) (hm : m ≤ 0) :
    make_request net rand m url = (none, []) := by
  unfold make_request
  rw [Int.toNat_of_nonpos hm]
  rfl

/-- Witness for C10: `max_retries = -3` performs nothing and returns `None`. -/
theorem make_request_nonpositive_retries_witness :
    make_request (fun _ => Except.error ()) (fun _ => 2) (-3) "https://example.org"
      = (none, []) :=
  make_request_nonpositive_retries _ _ _ (-3) (by decide)

/-- C7. When the fetch of the requested URL yields `None`, both
`scrape_highlight_news` and `scrape_news_content` return `None` at the
`if not soup` guard: the trace holds the one fetch and no container lookup
and no further fetch. -/
theorem absent_fetch_propagates (fetch : String → Option Doc)
    (url category : String) (h : fetch url = none) :
    scrape_news_content fetch url = (Except.ok none, [ScrapeEv.fetched url]) ∧
    scrape_highlight_news fetch url category
      = (Except.ok none, [ScrapeEv.fetched url]) := by
  constructor
  · simp [scrape_news_content, h]
  · simp [scrape_highlight_news, h]

/-- Witness for C7 at the always-failing fetch oracle. -/
theorem absent_fetch_propagates_witness :
    scrape_news_content (fun _ => none) "https://www.thairath.co.th/news/royal"
      = (Except.ok none, [ScrapeEv.fetched "https://www.thairath.co.th/news/royal"]) ∧
    scrape_highlight_news (fun _ => none) "https://www.thairath.co.th/news/royal" "royal"
      = (Except.ok none, [ScrapeEv.fetched "https://www.thairath.co.th/news/royal"]) :=
  absent_fetch_propagates _ _ "royal" rfl

/-- C8. `extract_text` never raises (it is a total function): on Python
`None` it returns the default, on an element whose text extraction raises it
returns the default, and on an element it returns `get_text(strip=True)`,
which for an element holding the single string `s` is `s` stripped of
surrounding whitespace; in particular `"  Hello World  "` yields
`"Hello World"`. -/
theorem extract_text_contract (n : Node) (d msg s : String) :
    extract_text BsElement.null d = d ∧
    extract_text (BsElement.broken msg) d = d ∧
    extract_text (BsElement.tag n) d = n.getTextStrip ∧
    extract_text (BsElement.tag (Node.elem "p" [] [Node.text s])) d = pyStrip s ∧
    extract_text (BsElement.tag (Node.elem "p" [] [Node.text "  Hello World  "])) ""
      = "Hello World" := by
  refine ⟨rfl, rfl, rfl, ?_, by decide⟩
  show String.join [pyStrip s] = pyStrip s
  rw [string_join_cons, show String.join ([] : List String) = "" from rfl,
    string_append_empty]

/-- C2 (code bug witness). On a fetched article document with no
`article-body` container, `scrape_news_content` raises `AttributeError`
(the `soup.find(...)` is `None` and `.find_all("p")` is called on it):
it does not return `None` or the empty string. -/
theorem scrape_news_content_missing_container_raises :
    (scrape_news_content
        (fun _ => some [Node.elem "div" [("class", "content")]
          [Node.elem "p" [] [Node.text "x"]]])
        "https://www.thairath.co.th/news/royal/1").1
      = Except.error "AttributeError: NoneType object has no attribute find_all" ∧
    (scrape_news_content
        (fun _ => some [Node.elem "div" [("class", "content")]
          [Node.elem "p" [] [Node.text "x"]]])
        "https://www.thairath.co.th/news/royal/1").1
      ≠ Except.ok none ∧
    (scrape_news_content
        (fun _ => some [Node.elem "div" [("class", "content")]
          [Node.elem "p" [] [Node.text "x"]]])
        "https://www.thairath.co.th/news/royal/1").1
      ≠ Except.ok (some "") := by
  refine ⟨rfl, fun h => Except.noConfusion h, fun h => Except.noConfusion h⟩

/-- C3 (code bug witness). `ThaiRathNewsScraper.scrape` crashes on its first
category: the call at line 22 omits the required `category` argument of
`scrape_highlight_news`, so the whole driver raises `TypeError` instead of
scraping the six categories and sleeping between them. -/
theorem scrape_raises_typeerror_first_category :
    scrape thairath_base_url news_category
      = Except.error
        "TypeError: scrape_highlight_news() missing 1 required positional argument: category" ∧
    news_category ≠ [] := by
  exact ⟨rfl, by decide⟩

/-- C9 (counterexample). A successfully parsed but empty document is not
treated like a fetch failure: a bs4 tag is truthy even when empty, so the
`if not soup` guard does not fire; both extractors go on to the container
lookup, which is `None`, and raise `AttributeError` — they do not return
`None`. -/
theorem empty_doc_counterexample :
    (scrape_news_content (fun _ => some []) "https://u").1
      = Except.error "AttributeError: NoneType object has no attribute find_all" ∧
    (scrape_highlight_news (fun _ => some []) "https://u" "royal").1
      = Except.error "AttributeError: NoneType object has no attribute find_all" ∧
    (scrape_news_content (fun _ => some []) "https://u").1 ≠ Except.ok none ∧
    (scrape_highlight_news (fun _ => some []) "https://u" "royal").1
      ≠ Except.ok none := by
  refine ⟨rfl, rfl, fun h => Except.noConfusion h, fun h => Except.noConfusion h⟩

/-- C9 (amended). Whenever the fetch returns an empty parsed document, the
`if not soup` guard does not fire; both `scrape_news_content` and
`scrape_highlight_news` proceed to the container lookup and raise
`AttributeError` rather than returning `None`. -/
theorem empty_doc_not_treated_as_failure (fetch : String → Option Doc)
    (url category : String) (h : fetch url = some []) :
    (scrape_news_content fetch url).1
      = Except.error "AttributeError: NoneType object has no attribute find_all" ∧
    (scrape_highlight_news fetch url category).1
      = Except.error "AttributeError: NoneType object has no attribute find_all" := by
  constructor
  · simp [scrape_news_content, h, findDivClass, preorderForest]
  · simp [scrape_highlight_news, h, findDivClass, preorderForest]

/-- Witness for the amended C9 at a concrete empty-document oracle. -/
theorem empty_doc_not_treated_as_failure_witness :
    (scrape_news_content (fun _ => some []) "https://w").1
      = Except.error "AttributeError: NoneType object has no attribute find_all" ∧
    (scrape_highlight_news (fun _ => some []) "https://w" "crime").1
      = Except.error "AttributeError: NoneType object has no attribute find_all" :=
  empty_doc_not_treated_as_failure _ _ "crime" rfl

/-- C4 (counterexample). `scrape_news_content` does not strip paragraph
texts: `line.getText()` is called with no arguments, so a paragraph whose
text carries surrounding whitespace keeps it, and the result differs from
the stripped concatenation the claim predicts. -/
theorem scrape_news_content_not_stripped :
    (scrape_news_content
        (fun _ => some [Node.elem "div" [("class", "article-body")]
          [Node.elem "p" [] [Node.text "  Part1  "],
           Node.elem "p" [] [Node.text "Part2"]]])
        "https://a").1
      = Except.ok (some "  Part1  Part2") ∧
    ("  Part1  Part2" : String) ≠ "Part1Part2" := by
  exact ⟨rfl, by decide⟩

/-- C4 (amended). For every successfully fetched article page whose
`article-body` container is present, `scrape_news_content` returns the
concatenation, in document order and with no separator, of the verbatim
(unstripped) text content of every paragraph element inside the container. -/
theorem scrape_news_content_concat (fetch : String → Option Doc) (url : String)
    (soup : Doc) (container : Node)
    (hf : fetch url = some soup)
    (hc : findDivClass soup "article-body" = some container) :
    (scrape_news_content fetch url).1
      = Except.ok (some (String.join ((findAllNamed container "p").map Node.getText))) := by
  simp [scrape_news_content, hf, hc, foldl_concat_getText]

/-- Witness for the amended C4: the body container holding the paragraphs
Part1 and Part2 yields exactly the separator-free concatenation
Part1Part2. -/
theorem scrape_news_content_concat_witness :
    (scrape_news_content
        (fun _ => some [Node.elem "div" [("class", "article-body")]
          [Node.elem "p" [] [Node.text "Part1"],
           Node.elem "p" [] [Node.text "Part2"]]])
        "https://a").1
      = Except.ok (some "Part1Part2") := by
  have h := scrape_news_content_concat
    (fun _ => some [Node.elem "div" [("class", "article-body")]
      [Node.elem "p" [] [Node.text "Part1"],
       Node.elem "p" [] [Node.text "Part2"]]])
    "https://a" _ _ rfl rfl
  rw [h]
  rfl

/-- The record-building loop, when every nested content extraction returns
without raising: one record per link, in order, with the title attribute,
the concatenated link, the given category, and the extracted content. -/
theorem buildHighlight_ok (fetch : String → Option Doc) (url category : String)
    (l : List Node)
    (hok : ∀ a ∈ l, ∃ c,
      (scrape_news_content fetch (url ++ pyFormatOpt (a.get "href"))).1 = Except.ok c) :
    (buildHighlight fetch url category l).1
      = Except.ok (l.map (fun a =>
          { title := a.get "title",
            link := url ++ pyFormatOpt (a.get "href"),
            news_type := category,
            content := okValue ((scrape_news_content fetch
              (url ++ pyFormatOpt (a.get "href"))).1) })) := by
  induction l with
  | nil => rfl
  | cons a l ih =>
    obtain ⟨c, hc⟩ := hok a (List.mem_cons_self a l)
    have ihl := ih (fun b hb => hok b (List.mem_cons_of_mem a hb))
    simp [buildHighlight, hc, ihl, okValue]

/-- C6 (amended). For every successfully fetched category page whose
`slick-track` carousel container is present, provided each nested
`scrape_news_content` call returns without raising, `scrape_highlight_news`
returns one record per hyperlink element of the container, in document
order: `title` the title attribute (absent when not present), `link` the
listing URL concatenated with the href attribute, `news_type` the category
passed in, and `content` the nested extraction result. -/
theorem scrape_highlight_news_records (fetch : String → Option Doc)
    (url category : String) (soup : Doc) (container : Node)
    (hf : fetch url = some soup)
    (hc : findDivClass soup "slick-track" = some container)
    (hok : ∀ a ∈ findAllNamed container "a", ∃ c,
      (scrape_news_content fetch (url ++ pyFormatOpt (a.get "href"))).1 = Except.ok c) :
    (scrape_highlight_news fetch url category).1
      = Except.ok (some ((findAllNamed container "a").map (fun a =>
          { title := a.get "title",
            link := url ++ pyFormatOpt (a.get "href"),
            news_type := category,
            content := okValue ((scrape_news_content fetch
              (url ++ pyFormatOpt (a.get "href"))).1) }))) := by
  simp [scrape_highlight_news, hf, hc,
    buildHighlight_ok fetch url category _ hok, Except.map]

/-- C6 (counterexample). A successfully fetched category page with the
carousel present does not always yield the records: when a linked article
page is fetched successfully but lacks the `article-body` container, the
nested `scrape_news_content` call raises, the exception propagates, and
`scrape_highlight_news` returns no records at all. -/
theorem scrape_highlight_news_nested_raise :
    ((fun u => if u == "https://cat" then
        some [Node.elem "div" [("class", "slick-track")]
          [Node.elem "a" [("href", "/a1")] []]]
      else some ([] : List Node)) "https://cat").isSome = true ∧
    (findDivClass [Node.elem "div" [("class", "slick-track")]
        [Node.elem "a" [("href", "/a1")] []]] "slick-track").isSome = true ∧
    (scrape_highlight_news
        (fun u => if u == "https://cat" then
            some [Node.elem "div" [("class", "slick-track")]
              [Node.elem "a" [("href", "/a1")] []]]
          else some ([] : List Node))
        "https://cat" "royal").1
      = Except.error "AttributeError: NoneType object has no attribute find_all" := by
  exact ⟨rfl, rfl, rfl⟩

/-- Witness for the amended C6: a carousel holding the two links
(href /a1, title T1) and (href /a2, title T2) yields the two records in
order, with the concatenated links and the category passed in. -/
theorem scrape_highlight_news_records_witness :
    (scrape_highlight_news
        (fun u => if u == "https://cat" then
            some [Node.elem "div" [("class", "slick-track")]
              [Node.elem "a" [("href", "/a1"), ("title", "T1")] [],
               Node.elem "a" [("href", "/a2"), ("title", "T2")] []]]
          else none)
        "https://cat" "royal").1
      = Except.ok (some
          [{ title := some "T1", link := "https://cat/a1",
             news_type := "royal", content := none },
           { title := some "T2", link := "https://cat/a2",
             news_type := "royal", content := none }]) := by
  have hok : ∀ a ∈ findAllNamed
      (Node.elem "div" [("class", "slick-track")]
        [Node.elem "a" [("href", "/a1"), ("title", "T1")] [],
         Node.elem "a" [("href", "/a2"), ("title", "T2")] []]) "a", ∃ c,
      (scrape_news_content
        (fun u => if u == "https://cat" then
            some [Node.elem "div" [("class", "slick-track")]
              [Node.elem "a" [("href", "/a1"), ("title", "T1")] [],
               Node.elem "a" [("href", "/a2"), ("title", "T2")] []]]
          else none)
        ("https://cat" ++ pyFormatOpt (a.get "href"))).1 = Except.ok c := by
    intro a ha
    rw [show findAllNamed
        (Node.elem "div" [("class", "slick-track")]
          [Node.elem "a" [("href", "/a1"), ("title", "T1")] [],
           Node.elem "a" [("href", "/a2"), ("title", "T2")] []]) "a"
      = [Node.elem "a" [("href", "/a1"), ("title", "T1")] [],
         Node.elem "a" [("href", "/a2"), ("title", "T2")] []] from rfl] at ha
    simp only [List.mem_cons, List.not_mem_nil, or_false] at ha
    rcases ha with rfl | rfl
    · exact ⟨none, rfl⟩
    · exact ⟨none, rfl⟩
  have h := scrape_highlight_news_records
    (fun u => if u == "https://cat" then
        some [Node.elem "div" [("class", "slick-track")]
          [Node.elem "a" [("href", "/a1"), ("title", "T1")] [],
           Node.elem "a" [("href", "/a2"), ("title", "T2")] []]]
      else none)
    "https://cat" "royal" _ _ rfl rfl hok
  rw [h]
  rfl

/-- Unrolling of the retry loop when attempt `k` is the first success: the
attempts before `k` each fail and contribute a full segment with backoff,
attempt `k` contributes its segment without backoff, and the document is
returned at once. -/
theorem makeRequestLoop_success (net : ℕ → Except Unit Doc) (rand : ℕ → ℚ)
    (url : String) (N k : ℕ) (doc : Doc)
    (hkN : k < N) (hk : net k = Except.ok doc)
    (hfail : ∀ j, j < k → net j = Except.error ()) :
    ∀ n s, s + n = N → s ≤ k →
      makeRequestLoop net rand (N : ℤ) url (List.range' s n)
        = (some doc,
           ((List.range' s (k - s)).map (failSeg rand url)).flatten
             ++ lastSeg rand url k) := by
  intro n
  induction n with
  | zero =>
    intro s hs hsk
    omega
  | succ m ih =>
    intro s hs hsk
    rw [List.range'_succ]
    rcases eq_or_lt_of_le hsk with rfl | hlt
    · simp [makeRequestLoop, hk, lastSeg, Nat.sub_self]
    · have hserr := hfail s hlt
      have hcond : ¬((s : ℤ) = (N : ℤ) - 1) := by omega
      simp only [makeRequestLoop, hserr]
      rw [if_neg hcond]
      rw [ih (s + 1) (by omega) (by omega)]
      rw [show k - s = (k - (s + 1)) + 1 from by omega, List.range'_succ]
      simp [failSeg, lastSeg]

/-- Unrolling of the retry loop when every attempt fails: all attempts but
the last contribute a full segment with backoff, the last contributes its
segment without backoff, and `None` is returned. -/
theorem makeRequestLoop_allfail (net : ℕ → Except Unit Doc) (rand : ℕ → ℚ)
    (url : String) (N : ℕ)
    (hfail : ∀ j, j < N → net j = Except.error ()) :
    ∀ n s, s + n = N → 0 < n →
      makeRequestLoop net rand (N : ℤ) url (List.range' s n)
        = (none,
           ((List.range' s (n - 1)).map (failSeg rand url)).flatten
             ++ lastSeg rand url (N - 1)) := by
  intro n
  induction n with
  | zero =>
    intro s hs hpos
    omega
  | succ m ih =>
    intro s hs hpos
    rw [List.range'_succ]
    have hserr := hfail s (by omega)
    rcases Nat.eq_zero_or_pos m with rfl | hm
    · have hcond : (s : ℤ) = (N : ℤ) - 1 := by omega
      simp only [makeRequestLoop, hserr]
      rw [if_pos hcond]
      rw [show s = N - 1 from by omega]
      simp [lastSeg]
    · have hcond : ¬((s : ℤ) = (N : ℤ) - 1) := by omega
      simp only [makeRequestLoop, hserr]
      rw [if_neg hcond]
      rw [ih (s + 1) (by omega) hm]
      rw [show (m + 1) - 1 = (m - 1) + 1 from by omega, List.range'_succ]
      simp [failSeg, lastSeg]

/-- GET count of a concatenation of traces. -/
theorem countGets_append (A B : List FetchEv) :
    countGets (A ++ B) = countGets A + countGets B :=
  List.countP_append _ _ _

/-- Each failed-attempt segment holds exactly one GET. -/
theorem countGets_failSegs (rand : ℕ → ℚ) (url : String) (L : List ℕ) :
    countGets ((L.map (failSeg rand url)).flatten) = L.length := by
  induction L with
  | nil => rfl
  | cons j L ih =>
    simp only [List.map_cons, List.flatten_cons, countGets_append, ih]
    rw [show countGets (failSeg rand url j) = 1 from rfl, List.length_cons]
    omega

/-- The final segment holds exactly one GET. -/
theorem countGets_lastSeg (rand : ℕ → ℚ) (url : String) (j : ℕ) :
    countGets (lastSeg rand url j) = 1 :=
  rfl

/-- C1. For a positive `max_retries = N`, `make_request` performs one HTTP
GET per attempt and at most `N` attempts: when all `N` attempts fail with a
transport error it performs exactly `N` GETs and returns `None` without
raising, and when the first success is attempt `k` (0-indexed, `k < N`) it
performs exactly `k + 1` GETs and returns the parsed document at once. -/
theorem make_request_retry_contract (net : ℕ → Except Unit Doc) (rand : ℕ → ℚ)
    (url : String) (N : ℕ) (hN : 0 < N) :
    ((∀ j, j < N → net j = Except.error ()) →
        (make_request net rand (N : ℤ) url).1 = none ∧
        countGets (make_request net rand (N : ℤ) url).2 = N)
    ∧ (∀ k doc, k < N → net k = Except.ok doc →
        (∀ j, j < k → net j = Except.error ()) →
        (make_request net rand (N : ℤ) url).1 = some doc ∧
        countGets (make_request net rand (N : ℤ) url).2 = k + 1) := by
  constructor
  · intro hfail
    rw [make_request, Int.toNat_natCast, List.range_eq_range',
      makeRequestLoop_allfail net rand url N hfail N 0 (by omega) hN]
    refine ⟨rfl, ?_⟩
    rw [countGets_append, countGets_failSegs, countGets_lastSeg]
    simp
    omega
  · intro k doc hkN hk hfail
    rw [make_request, Int.toNat_natCast, List.range_eq_range',
      makeRequestLoop_success net rand url N k doc hkN hk hfail N 0 (by omega)
        (by omega)]
    refine ⟨rfl, ?_⟩
    rw [countGets_append, countGets_failSegs, countGets_lastSeg]
    simp

/-- Witness for C1: with two retries, failure on attempt 0 and success on
attempt 1, the document is returned after exactly 2 GETs. -/
theorem make_request_retry_contract_witness :
    (make_request (fun j => if j == 0 then Except.error () else Except.ok [])
        (fun _ => 2) ((2 : ℕ) : ℤ) "https://example.org").1 = some [] ∧
    countGets (make_request (fun j => if j == 0 then Except.error () else Except.ok [])
        (fun _ => 2) ((2 : ℕ) : ℤ) "https://example.org").2 = 1 + 1 :=
  (make_request_retry_contract
      (fun j => if j == 0 then Except.error () else Except.ok [])
      (fun _ => 2) "https://example.org" 2 (by decide)).2
    1 [] (by decide) rfl
    (fun j hj => by
      have hj0 : j = 0 := by omega
      rw [hj0]
      rfl)

/-- Every base-delay value occurring in an unrolled trace is one of the
`random.uniform` draws. -/
theorem delay_mem_trace (rand : ℕ → ℚ) (url : String) (L : List ℕ) (j : ℕ)
    (d : ℚ)
    (h : FetchEv.sleepDelay d
      ∈ ((L.map (failSeg rand url)).flatten ++ lastSeg rand url j)) :
    ∃ i, d = rand i := by
  rw [List.mem_append] at h
  rcases h with h | h
  · rw [List.mem_flatten] at h
    obtain ⟨l, hl, hmem⟩ := h
    rw [List.mem_map] at hl
    obtain ⟨i, _, rfl⟩ := hl
    simp only [failSeg, List.mem_cons, List.not_mem_nil, or_false,
      FetchEv.sleepDelay.injEq, reduceCtorEq] at hmem
    exact ⟨i, hmem⟩
  · simp only [lastSeg, List.mem_cons, List.not_mem_nil, or_false,
      FetchEv.sleepDelay.injEq, reduceCtorEq] at h
    exact ⟨j, h⟩

/-- C5. For a positive `max_retries = N`, every execution of `make_request`
performs some number `A` of attempts (`1 ≤ A ≤ N`) and its trace is exactly:
for each attempt but the last, the `random.uniform` base delay then the GET
then the `2 ^ k` backoff sleep (those attempts all failed); for the last
attempt, the base delay then the GET and no backoff after it. Every attempt
before the last failed, stopping early happens only on success, and when the
draws lie in the configured interval so does every base delay slept. -/
theorem make_request_sleep_contract (net : ℕ → Except Unit Doc) (rand : ℕ → ℚ)
    (url : String) (N : ℕ) (lo hi : ℚ) (hN : 0 < N)
    (hr : ∀ k, lo ≤ rand k ∧ rand k ≤ hi) :
    ∃ A, 0 < A ∧ A ≤ N ∧
      (make_request net rand (N : ℤ) url).2
        = ((List.range' 0 (A - 1)).map (failSeg rand url)).flatten
            ++ lastSeg rand url (A - 1) ∧
      (∀ j, j < A - 1 → net j = Except.error ()) ∧
      (make_request net rand (N : ℤ) url).1 = (net (A - 1)).toOption ∧
      (A < N → ∃ doc, net (A - 1) = Except.ok doc) ∧
      (∀ d, FetchEv.sleepDelay d ∈ (make_request net rand (N : ℤ) url).2 →
        lo ≤ d ∧ d ≤ hi) := by
  classical
  by_cases hex : ∃ k, k < N ∧ ∃ doc, net k = Except.ok doc
  · obtain ⟨hkN, doc, hdoc⟩ := Nat.find_spec hex
    have hfail : ∀ j, j < Nat.find hex → net j = Except.error () := by
      intro j hj
      have hnp := Nat.find_min hex hj
      cases hnet : net j with
      | ok d => exact absurd ⟨by omega, ⟨d, hnet⟩⟩ hnp
      | error u => cases u; rfl
    have htr : (make_request net rand (N : ℤ) url)
        = (some doc,
           ((List.range' 0 (Nat.find hex - 0)).map (failSeg rand url)).flatten
             ++ lastSeg rand url (Nat.find hex)) := by
      rw [make_request, Int.toNat_natCast, List.range_eq_range']
      exact makeRequestLoop_success net rand url N (Nat.find hex) doc hkN hdoc
        hfail N 0 (by omega) (by omega)
    refine ⟨Nat.find hex + 1, by omega, by omega, ?_, ?_, ?_, ?_, ?_⟩
    · rw [htr]
      simp
    · intro j hj
      exact hfail j (by omega)
    · rw [htr]
      simp only [Nat.add_sub_cancel]
      rw [hdoc]
      rfl
    · intro _
      refine ⟨doc, ?_⟩
      simpa using hdoc
    · intro d hd
      rw [htr] at hd
      obtain ⟨i, rfl⟩ := delay_mem_trace rand url _ _ d hd
      exact hr i
  · push_neg at hex
    have hfail : ∀ j, j < N → net j = Except.error () := by
      intro j hj
      cases hnet : net j with
      | ok d => exact absurd hnet (hex j hj d)
      | error u => cases u; rfl
    have htr : (make_request net rand (N : ℤ) url)
        = (none,
           ((List.range' 0 (N - 1)).map (failSeg rand url)).flatten
             ++ lastSeg rand url (N - 1)) := by
      rw [make_request, Int.toNat_natCast, List.range_eq_range']
      exact makeRequestLoop_allfail net rand url N hfail N 0 (by omega) hN
    refine ⟨N, hN, le_refl N, ?_, ?_, ?_, ?_, ?_⟩
    · rw [htr]
    · intro j hj
      exact hfail j (by omega)
    · rw [htr, hfail (N - 1) (by omega)]
      rfl
    · intro hlt
      omega
    · intro d hd
      rw [htr] at hd
      obtain ⟨i, rfl⟩ := delay_mem_trace rand url _ _ d hd
      exact hr i

/-- Witness for C5 at a concrete failing network, two retries, and constant
draws 2 inside the configured interval [1, 3]. -/
theorem make_request_sleep_contract_witness :
    ∃ A, 0 < A ∧ A ≤ 2 ∧
      (make_request (fun _ => Except.error ()) (fun _ => 2) ((2 : ℕ) : ℤ)
          "https://example.org").2
        = ((List.range' 0 (A - 1)).map (failSeg (fun _ => 2) "https://example.org")).flatten
            ++ lastSeg (fun _ => 2) "https://example.org" (A - 1) ∧
      (∀ j, j < A - 1 → (Except.error () : Except Unit Doc) = Except.error ()) ∧
      (make_request (fun _ => Except.error ()) (fun _ => 2) ((2 : ℕ) : ℤ)
          "https://example.org").1
        = (Except.error () : Except Unit Doc).toOption ∧
      (A < 2 → ∃ doc : Doc, (Except.error () : Except Unit Doc) = Except.ok doc) ∧
      (∀ d, FetchEv.sleepDelay d
          ∈ (make_request (fun _ => Except.error ()) (fun _ => 2) ((2 : ℕ) : ℤ)
              "https://example.org").2 →
        (1 : ℚ) ≤ d ∧ d ≤ 3) :=
  make_request_sleep_contract (fun _ => Except.error ()) (fun _ => 2)
    "https://example.org" 2 1 3 (by decide)
    (fun _ => ⟨by norm_num, by norm_num⟩)
